import Mathlib

/-!
Shallow embedding of `describegraph_parser.py`, a converter from a JSON
graph snapshot (nodes + channels of a payment network) to three CSV tables
(`nodes_ln.csv`, `channels_ln.csv`, `edges_ln.csv`).

JSON values are modelled by an inductive `JsonValue`; Python dictionaries
produced by `json.load` are modelled as association lists with unique keys
(Python dicts keep one value per key), `dict.get(k, d)` as `JsonValue.getd`,
and Python truthiness (`if x:`) as `JsonValue.truthy`.  CSV rows are lists
of strings: Python's `csv.writer.writerow` applies `str()` to each cell,
modelled by `pyStr`.  File writing is modelled by returning the CSV content
(header plus rows) instead of performing I/O; each generator also returns
the progress line it prints.  `main` is modelled as a pure function of the
command-line arguments, of whether the output directory already exists, and
of the outcome of reading the input file (`LoadOutcome`).
-/

namespace DescribeGraph

/-- A JSON value as produced by Python's `json.load`.  Floating-point
numbers are not needed by any claim, so numbers are modelled as integers. -/
inductive JsonValue where
  | null
  | bool (b : Bool)
  | num (n : Int)
  | str (s : String)
  | arr (items : List JsonValue)
  | obj (fields : List (String × JsonValue))

/-- Python truthiness of a JSON value: `None`, `False`, `0`, `""`, `[]`
and `\x7b\x7d` are falsy, everything else truthy (source: the `if node1_policy:`
and `if not data:` tests). -/
def JsonValue.truthy : JsonValue → Bool
  | .null => false
  | .bool b => b
  | .num n => n != 0
  | .str s => s != ""
  | .arr [] => false
  | .arr (_ :: _) => true
  | .obj [] => false
  | .obj (_ :: _) => true

/-- Lookup of a key in the field list of a JSON object (a Python dict has
unique keys, so first-match lookup is dict lookup). -/
def lookupField : List (String × JsonValue) → String → Option JsonValue
  | [], _ => none
  | (k, v) :: rest, key => if k = key then some v else lookupField rest key

/-- Python `value.get(key, dflt)`.  On a non-dict value Python would raise
`AttributeError`; the claims only exercise dict receivers, and we return the
default there. -/
def JsonValue.getd (v : JsonValue) (key : String) (dflt : JsonValue) : JsonValue :=
  match v with
  | .obj fields => (lookupField fields key).getD dflt
  | _ => dflt

/-- Python `key in value` for a dict value: whether the key is present. -/
def JsonValue.hasKey (v : JsonValue) (key : String) : Bool :=
  match v with
  | .obj fields => (lookupField fields key).isSome
  | _ => false

mutual

/-- Python `repr` of a JSON value (used by `str` on lists and dicts).
String escaping inside `repr` is not modelled; no claim depends on it. -/
def pyRepr : JsonValue → String
  | .null => "None"
  | .bool b => if b then "True" else "False"
  | .num n => toString n
  | .str s => "\x27" ++ s ++ "\x27"
  | .arr items => "[" ++ pyReprList items ++ "]"
  | .obj fields => "\x7b" ++ pyReprFields fields ++ "\x7d"

/-- Comma-separated `repr` of the elements of a Python list. -/
def pyReprList : List JsonValue → String
  | [] => ""
  | [v] => pyRepr v
  | v :: rest => pyRepr v ++ ", " ++ pyReprList rest

/-- Comma-separated `repr` of the items of a Python dict. -/
def pyReprFields : List (String × JsonValue) → String
  | [] => ""
  | [(k, v)] => "\x27" ++ k ++ "\x27: " ++ pyRepr v
  | (k, v) :: rest => "\x27" ++ k ++ "\x27: " ++ pyRepr v ++ ", " ++ pyReprFields rest

end

/-- Python `str()` of a JSON value, as applied by `csv.writer` to each cell
and by f-string interpolation. -/
def pyStr : JsonValue → String
  | .str s => s
  | .null => "None"
  | .bool b => if b then "True" else "False"
  | .num n => toString n
  | .arr items => "[" ++ pyReprList items ++ "]"
  | .obj fields => "\x7b" ++ pyReprFields fields ++ "\x7d"

/-- Python `list(...)` coercion used implicitly when iterating the `nodes`
and `edges` values: claims only exercise JSON arrays there. -/
def JsonValue.toList : JsonValue → List JsonValue
  | .arr items => items
  | _ => []

/-- The content of one written CSV file: header row plus data rows. -/
structure CsvFile where
  header : List String
  rows : List (List String)

/-- Result of one `generate_*_csv` call: the file content, the count that
appears in the printed summary line, and the printed line itself. -/
structure GenResult where
  file : CsvFile
  reportedCount : Nat
  printed : String

/-- The row the node loop writes for one element of `nodes_data`
(source lines 27-29): `[node.get('pub_key', '')]`. -/
def nodeRowFor (node : JsonValue) : List String :=
  [pyStr (node.getd "pub_key" (.str ""))]

/-- `generate_nodes_csv` (source lines 21-31). -/
def generate_nodes_csv (nodes_data : List JsonValue) (output_file : String) : GenResult :=
  { file := { header := ["id"], rows := nodes_data.map nodeRowFor }
    reportedCount := nodes_data.length
    printed := "Generated " ++ output_file ++ " with " ++
      toString nodes_data.length ++ " nodes" }

/-- The row the channel loop writes for one element of `edges_data`
(source lines 39-49). -/
def channelRowFor (edge : JsonValue) : List String :=
  let channel_id := pyStr (edge.getd "channel_id" (.str ""))
  let node1_pub := pyStr (edge.getd "node1_pub" (.str ""))
  let node2_pub := pyStr (edge.getd "node2_pub" (.str ""))
  let capacity := pyStr (edge.getd "capacity" (.str "0"))
  let edge1_id := channel_id ++ "_1"
  let edge2_id := channel_id ++ "_2"
  [channel_id, edge1_id, edge2_id, node1_pub, node2_pub, capacity]

/-- `generate_channels_csv` (source lines 33-51). -/
def generate_channels_csv (edges_data : List JsonValue) (output_file : String) : GenResult :=
  { file := { header := ["id", "edge1_id", "edge2_id", "node1_id", "node2_id",
                         "capacity(millisat)"]
              rows := edges_data.map channelRowFor }
    reportedCount := edges_data.length
    printed := "Generated " ++ output_file ++ " with " ++
      toString edges_data.length ++ " channels" }

/-- The rows the edge loop writes for one element of `edges_data`
(source lines 63-101): one row per direction whose policy value is truthy,
node1 direction first. -/
def edgeRowsForChannel (edge : JsonValue) : List (List String) :=
  let channel_id := pyStr (edge.getd "channel_id" (.str ""))
  let node1_pub := pyStr (edge.getd "node1_pub" (.str ""))
  let node2_pub := pyStr (edge.getd "node2_pub" (.str ""))
  let edge1_id := channel_id ++ "_1"
  let edge2_id := channel_id ++ "_2"
  let node1_policy := edge.getd "node1_policy" (.obj [])
  let node2_policy := edge.getd "node2_policy" (.obj [])
  (if node1_policy.truthy then
    [[edge1_id, channel_id, edge2_id, node1_pub, node2_pub, "",
      pyStr (node1_policy.getd "fee_base_msat" (.str "0")),
      pyStr (node1_policy.getd "fee_rate_milli_msat" (.str "0")),
      pyStr (node1_policy.getd "min_htlc" (.str "0")),
      pyStr (node1_policy.getd "time_lock_delta" (.str "0"))]]
  else []) ++
  (if node2_policy.truthy then
    [[edge2_id, channel_id, edge1_id, node2_pub, node1_pub, "",
      pyStr (node2_policy.getd "fee_base_msat" (.str "0")),
      pyStr (node2_policy.getd "fee_rate_milli_msat" (.str "0")),
      pyStr (node2_policy.getd "min_htlc" (.str "0")),
      pyStr (node2_policy.getd "time_lock_delta" (.str "0"))]]
  else [])

/-- `generate_edges_csv` (source lines 53-103).  The printed summary uses
`len(edges_data) * 2`, not the number of rows actually written. -/
def generate_edges_csv (edges_data : List JsonValue) (output_file : String) : GenResult :=
  { file := { header := ["id", "channel_id", "counter_edge_id", "from_node_id",
                         "to_node_id", "balance(millisat)", "fee_base(millisat)",
                         "fee_proportional", "min_htlc(millisat)", "timelock"]
              rows := edges_data.flatMap edgeRowsForChannel }
    reportedCount := edges_data.length * 2
    printed := "Generated " ++ output_file ++ " with " ++
      toString (edges_data.length * 2) ++ " edge policies" }

/-- Outcome of opening and JSON-decoding the input file, abstracting the
file system: the file is read successfully and decodes to `doc`, the file
does not exist, or decoding fails with message `msg`. -/
inductive LoadOutcome where
  | ok (doc : JsonValue)
  | fileNotFound
  | parseError (msg : String)

/-- What a call of `load_json_data` returns and prints. -/
structure LoadResult where
  printed : List String
  data : JsonValue

/-- `load_json_data` (source lines 9-19): returns the decoded document, or
prints an error and returns the empty dict `\x7b\x7d` on `FileNotFoundError` or
`json.JSONDecodeError`. -/
def load_json_data (json_file_path : String) : LoadOutcome → LoadResult
  | .ok doc => { printed := [], data := doc }
  | .fileNotFound =>
      { printed := ["Error: JSONファイル \x27" ++ json_file_path ++ "\x27 が見つかりません"]
        data := .obj [] }
  | .parseError msg =>
      { printed := ["Error: JSONファイルの読み込みエラー: " ++ msg]
        data := .obj [] }

/-- `os.path.join` for the output paths (POSIX form; enough for the claims,
which never depend on the exact separator handling). -/
def path_join (dir name : String) : String :=
  if dir = "" then name
  else if dir.endsWith "/" then dir ++ name
  else dir ++ "/" ++ name

/-- Observable result of one run of `main`: whether the output directory
was created, everything printed, the three CSV files (`none` = the file was
never written), and the process exit status. -/
structure MainResult where
  dirCreated : Bool
  printed : List String
  nodesCsv : Option GenResult
  channelsCsv : Option GenResult
  edgesCsv : Option GenResult
  exitCode : Nat

/-- `main` (source lines 105-142) as a pure function of the parsed
command-line arguments (`json_file`, `output`), of whether the output
directory already exists, and of the load outcome.  The directory is
created (when missing) before the input file is loaded; a falsy loaded
document makes `main` return early, before any CSV is written; `main`
never calls `sys.exit`, so the process exit status is 0 in every case. -/
def main (json_file output : String) (output_dir_exists : Bool)
    (outcome : LoadOutcome) : MainResult :=
  let dirCreated := !output_dir_exists
  let dirMsgs : List String :=
    if output_dir_exists then [] else ["出力ディレクトリを作成しました: " ++ output]
  let lr := load_json_data json_file outcome
  if !lr.data.truthy then
    { dirCreated := dirCreated
      printed := dirMsgs ++ lr.printed ++ ["Error: JSONデータの読み込みに失敗しました"]
      nodesCsv := none, channelsCsv := none, edgesCsv := none
      exitCode := 0 }
  else
    let nodes_data := (lr.data.getd "nodes" (.arr [])).toList
    let edges_data := (lr.data.getd "edges" (.arr [])).toList
    let nres := generate_nodes_csv nodes_data (path_join output "nodes_ln.csv")
    let cres := generate_channels_csv edges_data (path_join output "channels_ln.csv")
    let eres := generate_edges_csv edges_data (path_join output "edges_ln.csv")
    { dirCreated := dirCreated
      printed := dirMsgs ++ lr.printed ++
        ["読み込み完了: " ++ toString nodes_data.length ++ " nodes, " ++
           toString edges_data.length ++ " edges",
         nres.printed, cres.printed, eres.printed,
         "All CSV files generated successfully!"]
      nodesCsv := some nres, channelsCsv := some cres, edgesCsv := some eres
      exitCode := 0 }

/-! Helper lemmas shared by several claim theorems. -/

/-- A `get` with default on an object that lacks the key yields the default. -/
theorem getd_eq_dflt_of_not_hasKey (v : JsonValue) (key : String) (dflt : JsonValue)
    (h : v.hasKey key = false) : v.getd key dflt = dflt := by
  cases v <;> simp [JsonValue.hasKey, JsonValue.getd] at *
  rename_i fields
  cases hl : lookupField fields key <;> simp [hl] at h ⊢

/-- `get` on an object with a leading binding: the binding's value when the
keys match, otherwise the lookup continues in the remaining fields. -/
theorem getd_cons (k key : String) (v : JsonValue) (fields : List (String × JsonValue))
    (d : JsonValue) :
    (JsonValue.obj ((k, v) :: fields)).getd key d
      = if k = key then v else (JsonValue.obj fields).getd key d := by
  show (if k = key then some v else lookupField fields key).getD d = _
  by_cases h : k = key <;> simp [h, JsonValue.getd]

/-- The empty object (the `get` default for a missing policy) is falsy. -/
theorem truthy_obj_nil : (JsonValue.obj []).truthy = false := rfl

/-- Lookup in a field list with a leading binding. -/
theorem lookupField_cons (k key : String) (v : JsonValue)
    (fields : List (String × JsonValue)) :
    lookupField ((k, v) :: fields) key
      = if k = key then some v else lookupField fields key := rfl

/-- C4: the Node Projector emits exactly one row per element of `nodes`, in
input order with no resequencing or deduplication; the single `id` column is
the node's `pub_key`, defaulting to the empty string when `pub_key` is
absent; the data-row count equals the length of the `nodes` sequence. -/
theorem C4_node_projector (nodes_data : List JsonValue) (output_file : String)
    (node : JsonValue) (i : Nat) :
    (generate_nodes_csv nodes_data output_file).file.rows.length = nodes_data.length ∧
    (generate_nodes_csv nodes_data output_file).file.rows.get? i
      = (nodes_data.get? i).map nodeRowFor ∧
    nodeRowFor node = [pyStr (node.getd "pub_key" (.str ""))] ∧
    (node.hasKey "pub_key" = false → nodeRowFor node = [""]) := by
  refine ⟨by simp [generate_nodes_csv], by simp [generate_nodes_csv], rfl, ?_⟩
  intro h
  simp [nodeRowFor, getd_eq_dflt_of_not_hasKey node "pub_key" (.str "") h, pyStr]

/-- C4 witness: on a two-node input the row count is 2, and a node without
`pub_key` yields the empty-string row. -/
theorem C4_node_projector_witness :
    (generate_nodes_csv [JsonValue.obj [("pub_key", JsonValue.str "A")], JsonValue.obj []]
        "nodes_ln.csv").file.rows.length = 2 ∧
    nodeRowFor (JsonValue.obj []) = [""] := by
  have h := C4_node_projector
    [JsonValue.obj [("pub_key", JsonValue.str "A")], JsonValue.obj []]
    "nodes_ln.csv" (JsonValue.obj []) 0
  exact ⟨h.1, h.2.2.2 rfl⟩

/-- C3: the Channel Projector emits exactly one row per channel in input
order; `edge1_id` and `edge2_id` are `channel_id` with `_1`/`_2` appended
(suffix still appended when `channel_id` is absent or empty, giving `_1`
and `_2`); the capacity cell is the channel's `capacity` value verbatim,
defaulting to `0` when absent. -/
theorem C3_channel_projector (edges_data : List JsonValue) (output_file : String)
    (edge : JsonValue) (i : Nat) :
    (generate_channels_csv edges_data output_file).file.rows.length = edges_data.length ∧
    (generate_channels_csv edges_data output_file).file.rows.get? i
      = (edges_data.get? i).map channelRowFor ∧
    (channelRowFor edge).get? 1
      = some (pyStr (edge.getd "channel_id" (.str "")) ++ "_1") ∧
    (channelRowFor edge).get? 2
      = some (pyStr (edge.getd "channel_id" (.str "")) ++ "_2") ∧
    (channelRowFor edge).get? 5 = some (pyStr (edge.getd "capacity" (.str "0"))) ∧
    (edge.getd "channel_id" (.str "") = .str "" →
      (channelRowFor edge).get? 1 = some "_1" ∧ (channelRowFor edge).get? 2 = some "_2") ∧
    (edge.hasKey "channel_id" = false →
      (channelRowFor edge).get? 1 = some "_1" ∧ (channelRowFor edge).get? 2 = some "_2") ∧
    (edge.hasKey "capacity" = false → (channelRowFor edge).get? 5 = some "0") := by
  refine ⟨by simp [generate_channels_csv], by simp [generate_channels_csv],
    rfl, rfl, rfl, ?_, ?_, ?_⟩
  · intro h
    constructor <;> simp [channelRowFor, h, pyStr]
  · intro h
    have := getd_eq_dflt_of_not_hasKey edge "channel_id" (.str "") h
    constructor <;> simp [channelRowFor, this, pyStr]
  · intro h
    have := getd_eq_dflt_of_not_hasKey edge "capacity" (.str "0") h
    simp [channelRowFor, this, pyStr]

/-- C3 witness: a channel with no `channel_id` and no `capacity` still gets
ids `_1`/`_2` and capacity `0`. -/
theorem C3_channel_projector_witness :
    (generate_channels_csv [JsonValue.obj []] "channels_ln.csv").file.rows.length = 1 ∧
    (channelRowFor (JsonValue.obj [])).get? 1 = some "_1" ∧
    (channelRowFor (JsonValue.obj [])).get? 2 = some "_2" ∧
    (channelRowFor (JsonValue.obj [])).get? 5 = some "0" := by
  have h := C3_channel_projector [JsonValue.obj []] "channels_ln.csv" (JsonValue.obj []) 0
  exact ⟨h.1, (h.2.2.2.2.2.2.1 rfl).1, (h.2.2.2.2.2.2.1 rfl).2, h.2.2.2.2.2.2.2 rfl⟩

/-- C7: the edge-policy count in the printed run summary is
`2 × number of channels`, whatever the number of rows actually written;
on a channel with no policies the file has 0 rows but the summary says 2. -/
theorem C7_reported_count (edges_data : List JsonValue) (output_file : String) :
    (generate_edges_csv edges_data output_file).reportedCount = 2 * edges_data.length ∧
    (generate_edges_csv edges_data output_file).printed
      = "Generated " ++ output_file ++ " with "
          ++ toString (2 * edges_data.length) ++ " edge policies" ∧
    (generate_edges_csv [JsonValue.obj []] "edges_ln.csv").file.rows.length = 0 ∧
    (generate_edges_csv [JsonValue.obj []] "edges_ln.csv").reportedCount = 2 := by
  refine ⟨by simp [generate_edges_csv, Nat.mul_comm], ?_, by decide, rfl⟩
  simp [generate_edges_csv, Nat.mul_comm]

/-- C1 counterexample: a channel whose `node1_policy` key is present but
holds the empty object (and whose `node2_policy` is absent) has exactly one
policy present, yet the Edge Projector emits zero rows, not one: the code
tests truthiness of the value, not presence of the key. -/
theorem C1_counterexample :
    (JsonValue.obj [("channel_id", JsonValue.str "C"), ("node1_pub", JsonValue.str "A"),
        ("node2_pub", JsonValue.str "B"),
        ("node1_policy", JsonValue.obj [])]).hasKey "node1_policy" = true ∧
    (JsonValue.obj [("channel_id", JsonValue.str "C"), ("node1_pub", JsonValue.str "A"),
        ("node2_pub", JsonValue.str "B"),
        ("node1_policy", JsonValue.obj [])]).hasKey "node2_policy" = false ∧
    (edgeRowsForChannel (JsonValue.obj [("channel_id", JsonValue.str "C"),
        ("node1_pub", JsonValue.str "A"), ("node2_pub", JsonValue.str "B"),
        ("node1_policy", JsonValue.obj [])])).length = 0 := by
  decide

/-- C1 (amended): per channel the Edge Projector emits one directed row per
policy key holding a truthy value (a present-but-falsy policy emits no row):
neither truthy gives zero rows, exactly one truthy gives exactly one row,
and both truthy give exactly two rows whose `from_node_id`/`to_node_id` are
swapped (`node1_pub`→`node2_pub` for the node1 row, `node2_pub`→`node1_pub`
for the node2 row), the four policy cells being the policy's sub-fields,
which default to `0` when absent. -/
theorem C1_edge_projector (edge : JsonValue) (p : JsonValue) (key : String) :
    ((edge.getd "node1_policy" (.obj [])).truthy = false →
      (edge.getd "node2_policy" (.obj [])).truthy = false →
      edgeRowsForChannel edge = []) ∧
    ((edge.getd "node1_policy" (.obj [])).truthy = true →
      (edge.getd "node2_policy" (.obj [])).truthy = false →
      (edgeRowsForChannel edge).length = 1) ∧
    ((edge.getd "node1_policy" (.obj [])).truthy = false →
      (edge.getd "node2_policy" (.obj [])).truthy = true →
      (edgeRowsForChannel edge).length = 1) ∧
    ((edge.getd "node1_policy" (.obj [])).truthy = true →
      (edge.getd "node2_policy" (.obj [])).truthy = true →
      ∃ r1 r2, edgeRowsForChannel edge = [r1, r2] ∧
        r1.get? 3 = some (pyStr (edge.getd "node1_pub" (.str ""))) ∧
        r1.get? 4 = some (pyStr (edge.getd "node2_pub" (.str ""))) ∧
        r2.get? 3 = some (pyStr (edge.getd "node2_pub" (.str ""))) ∧
        r2.get? 4 = some (pyStr (edge.getd "node1_pub" (.str ""))) ∧
        r1.get? 6 = some (pyStr ((edge.getd "node1_policy" (.obj [])).getd
          "fee_base_msat" (.str "0"))) ∧
        r1.get? 7 = some (pyStr ((edge.getd "node1_policy" (.obj [])).getd
          "fee_rate_milli_msat" (.str "0"))) ∧
        r1.get? 8 = some (pyStr ((edge.getd "node1_policy" (.obj [])).getd
          "min_htlc" (.str "0"))) ∧
        r1.get? 9 = some (pyStr ((edge.getd "node1_policy" (.obj [])).getd
          "time_lock_delta" (.str "0"))) ∧
        r2.get? 6 = some (pyStr ((edge.getd "node2_policy" (.obj [])).getd
          "fee_base_msat" (.str "0"))) ∧
        r2.get? 7 = some (pyStr ((edge.getd "node2_policy" (.obj [])).getd
          "fee_rate_milli_msat" (.str "0"))) ∧
        r2.get? 8 = some (pyStr ((edge.getd "node2_policy" (.obj [])).getd
          "min_htlc" (.str "0"))) ∧
        r2.get? 9 = some (pyStr ((edge.getd "node2_policy" (.obj [])).getd
          "time_lock_delta" (.str "0")))) ∧
    (p.hasKey key = false → pyStr (p.getd key (.str "0")) = "0") := by
  refine ⟨?_, ?_, ?_, ?_, ?_⟩
  · intro h1 h2
    simp [edgeRowsForChannel, h1, h2]
  · intro h1 h2
    simp [edgeRowsForChannel, h1, h2]
  · intro h1 h2
    simp [edgeRowsForChannel, h1, h2]
  · intro h1 h2
    refine ⟨[pyStr (edge.getd "channel_id" (.str "")) ++ "_1",
             pyStr (edge.getd "channel_id" (.str "")),
             pyStr (edge.getd "channel_id" (.str "")) ++ "_2",
             pyStr (edge.getd "node1_pub" (.str "")),
             pyStr (edge.getd "node2_pub" (.str "")), "",
             pyStr ((edge.getd "node1_policy" (.obj [])).getd "fee_base_msat" (.str "0")),
             pyStr ((edge.getd "node1_policy" (.obj [])).getd "fee_rate_milli_msat" (.str "0")),
             pyStr ((edge.getd "node1_policy" (.obj [])).getd "min_htlc" (.str "0")),
             pyStr ((edge.getd "node1_policy" (.obj [])).getd "time_lock_delta" (.str "0"))],
            [pyStr (edge.getd "channel_id" (.str "")) ++ "_2",
             pyStr (edge.getd "channel_id" (.str "")),
             pyStr (edge.getd "channel_id" (.str "")) ++ "_1",
             pyStr (edge.getd "node2_pub" (.str "")),
             pyStr (edge.getd "node1_pub" (.str "")), "",
             pyStr ((edge.getd "node2_policy" (.obj [])).getd "fee_base_msat" (.str "0")),
             pyStr ((edge.getd "node2_policy" (.obj [])).getd "fee_rate_milli_msat" (.str "0")),
             pyStr ((edge.getd "node2_policy" (.obj [])).getd "min_htlc" (.str "0")),
             pyStr ((edge.getd "node2_policy" (.obj [])).getd "time_lock_delta" (.str "0"))],
            by simp [edgeRowsForChannel, h1, h2],
            rfl, rfl, rfl, rfl, rfl, rfl, rfl, rfl, rfl, rfl, rfl, rfl⟩
  · intro h
    simp [getd_eq_dflt_of_not_hasKey p key (.str "0") h, pyStr]

/-- C1 (amended) witness: on a concrete channel with both policies truthy,
both rows are emitted with swapped endpoints and defaulted policy cells. -/
theorem C1_edge_projector_witness :
    (edgeRowsForChannel (JsonValue.obj [("channel_id", JsonValue.str "C"),
        ("node1_pub", JsonValue.str "A"), ("node2_pub", JsonValue.str "B"),
        ("node1_policy", JsonValue.obj [("fee_base_msat", JsonValue.str "7")]),
        ("node2_policy", JsonValue.obj [("min_htlc", JsonValue.str "5")])])).length = 2 ∧
    pyStr ((JsonValue.obj [("fee_base_msat", JsonValue.str "7")]).getd
      "min_htlc" (.str "0")) = "0" := by
  have h := C1_edge_projector
    (JsonValue.obj [("channel_id", JsonValue.str "C"),
      ("node1_pub", JsonValue.str "A"), ("node2_pub", JsonValue.str "B"),
      ("node1_policy", JsonValue.obj [("fee_base_msat", JsonValue.str "7")]),
      ("node2_policy", JsonValue.obj [("min_htlc", JsonValue.str "5")])])
    (JsonValue.obj [("fee_base_msat", JsonValue.str "7")]) "min_htlc"
  obtain ⟨r1, r2, hrows, -⟩ := h.2.2.2.1 (by decide) (by decide)
  exact ⟨by rw [hrows]; rfl, h.2.2.2.2 (by decide)⟩

/-- C2: every emitted edge row's `counter_edge_id` (column 2) is the sibling
direction's `id` (column 0) for the same channel — the `_1` row points at
`_2` and conversely — so following the counter reference from one emitted
row to another and back returns to the original id. -/
theorem C2_counter_edge (edge : JsonValue) (r1 r2 : List String)
    (h1 : r1 ∈ edgeRowsForChannel edge) (h2 : r2 ∈ edgeRowsForChannel edge) :
    ((r1.get? 0 = some (pyStr (edge.getd "channel_id" (.str "")) ++ "_1") ∧
      r1.get? 2 = some (pyStr (edge.getd "channel_id" (.str "")) ++ "_2")) ∨
     (r1.get? 0 = some (pyStr (edge.getd "channel_id" (.str "")) ++ "_2") ∧
      r1.get? 2 = some (pyStr (edge.getd "channel_id" (.str "")) ++ "_1"))) ∧
    (r1.get? 2 = r2.get? 0 → r2.get? 2 = r1.get? 0) := by
  cases ht1 : (edge.getd "node1_policy" (.obj [])).truthy <;>
    cases ht2 : (edge.getd "node2_policy" (.obj [])).truthy
  · simp [edgeRowsForChannel, ht1, ht2] at h1
  · simp [edgeRowsForChannel, ht1, ht2] at h1 h2
    subst h1; subst h2
    exact ⟨Or.inr ⟨rfl, rfl⟩, fun h => h⟩
  · simp [edgeRowsForChannel, ht1, ht2] at h1 h2
    subst h1; subst h2
    exact ⟨Or.inl ⟨rfl, rfl⟩, fun h => h⟩
  · simp [edgeRowsForChannel, ht1, ht2] at h1 h2
    rcases h1 with h1 | h1 <;> rcases h2 with h2 | h2 <;> subst h1 <;> subst h2 <;>
      first
      | exact ⟨Or.inl ⟨rfl, rfl⟩, fun h => h⟩
      | exact ⟨Or.inl ⟨rfl, rfl⟩, fun _ => rfl⟩
      | exact ⟨Or.inr ⟨rfl, rfl⟩, fun _ => rfl⟩
      | exact ⟨Or.inr ⟨rfl, rfl⟩, fun h => h⟩

/-- C2 witness: on a concrete channel with both policies the first row's
counter is the second row's id and conversely. -/
theorem C2_counter_edge_witness :
    ((["C_1", "C", "C_2", "A", "B", "", "0", "0", "5", "0"] : List String).get? 0
       = some ((("C" : String)) ++ "_1") ∧
     (["C_1", "C", "C_2", "A", "B", "", "0", "0", "5", "0"] : List String).get? 2
       = some ((("C" : String)) ++ "_2")) ∨
    ((["C_1", "C", "C_2", "A", "B", "", "0", "0", "5", "0"] : List String).get? 0
       = some ((("C" : String)) ++ "_2") ∧
     (["C_1", "C", "C_2", "A", "B", "", "0", "0", "5", "0"] : List String).get? 2
       = some ((("C" : String)) ++ "_1")) := by
  have h := C2_counter_edge
    (JsonValue.obj [("channel_id", JsonValue.str "C"),
      ("node1_pub", JsonValue.str "A"), ("node2_pub", JsonValue.str "B"),
      ("node1_policy", JsonValue.obj [("min_htlc", JsonValue.str "5")]),
      ("node2_policy", JsonValue.obj [("min_htlc", JsonValue.str "5")])])
    ["C_1", "C", "C_2", "A", "B", "", "0", "0", "5", "0"]
    ["C_2", "C", "C_1", "B", "A", "", "0", "0", "5", "0"]
    (by decide) (by decide)
  exact h.1

/-- C9: a direction's row is emitted exactly when the value stored under the
policy key is truthy — the emitted-row count is one per truthy policy — and
a channel whose policy key holds a falsy value (`None`, the empty object,
`0`, `""`, ...) produces the same rows as one lacking the key entirely. -/
theorem C9_policy_truthiness (edge : JsonValue) (fields : List (String × JsonValue))
    (v : JsonValue) :
    (edgeRowsForChannel edge).length
      = (if (edge.getd "node1_policy" (.obj [])).truthy then 1 else 0)
        + (if (edge.getd "node2_policy" (.obj [])).truthy then 1 else 0) ∧
    (v.truthy = false → lookupField fields "node1_policy" = none →
      edgeRowsForChannel (.obj (("node1_policy", v) :: fields))
        = edgeRowsForChannel (.obj fields)) ∧
    (v.truthy = false → lookupField fields "node2_policy" = none →
      edgeRowsForChannel (.obj (("node2_policy", v) :: fields))
        = edgeRowsForChannel (.obj fields)) := by
  refine ⟨?_, ?_, ?_⟩
  · cases ht1 : (edge.getd "node1_policy" (.obj [])).truthy <;>
      cases ht2 : (edge.getd "node2_policy" (.obj [])).truthy <;>
      simp [edgeRowsForChannel, ht1, ht2]
  · intro hv hn
    have k1 : ("node1_policy" : String) ≠ "channel_id" := by decide
    have k2 : ("node1_policy" : String) ≠ "node1_pub" := by decide
    have k3 : ("node1_policy" : String) ≠ "node2_pub" := by decide
    have k4 : ("node1_policy" : String) ≠ "node2_policy" := by decide
    simp [edgeRowsForChannel, lookupField_cons, k1, k2, k3, k4, hv, JsonValue.getd, hn, truthy_obj_nil]
  · intro hv hn
    have k1 : ("node2_policy" : String) ≠ "channel_id" := by decide
    have k2 : ("node2_policy" : String) ≠ "node1_pub" := by decide
    have k3 : ("node2_policy" : String) ≠ "node2_pub" := by decide
    have k4 : ("node2_policy" : String) ≠ "node1_policy" := by decide
    simp [edgeRowsForChannel, lookupField_cons, k1, k2, k3, k4, hv, JsonValue.getd, hn, truthy_obj_nil]

/-- C9 witness: a channel whose `node1_policy` is `null` yields the same
(empty) edge rows as the same channel without the key. -/
theorem C9_policy_truthiness_witness :
    edgeRowsForChannel (JsonValue.obj
        [("node1_policy", JsonValue.null), ("channel_id", JsonValue.str "C")])
      = edgeRowsForChannel (JsonValue.obj [("channel_id", JsonValue.str "C")]) := by
  have h := C9_policy_truthiness (JsonValue.obj [("channel_id", JsonValue.str "C")])
    [("channel_id", JsonValue.str "C")] JsonValue.null
  exact h.2.1 rfl rfl

/-- C5 counterexample: the empty JSON object is a successfully parsed
document lacking both top-level keys, yet `main` treats it as a load failure
(`if not data:`) and writes none of the three CSV files. -/
theorem C5_counterexample :
    (main "graph.json" "." true (.ok (.obj []))).nodesCsv = none ∧
    (main "graph.json" "." true (.ok (.obj []))).channelsCsv = none ∧
    (main "graph.json" "." true (.ok (.obj []))).edgesCsv = none ∧
    "Error: JSONデータの読み込みに失敗しました"
      ∈ (main "graph.json" "." true (.ok (.obj []))).printed := by
  exact ⟨rfl, rfl, rfl, List.mem_singleton_self _⟩

/-- C5 (amended): for a successfully parsed document that is truthy (a
non-empty object), missing top-level `nodes`/`edges` keys default to empty
sequences and the run still writes the three output tables with zero data
rows; the empty object, however, is falsy and is treated like a load
failure, writing no files. -/
theorem C5_missing_keys_default (doc : JsonValue) (json_file output : String)
    (output_dir_exists : Bool) (ht : doc.truthy = true)
    (hn : doc.hasKey "nodes" = false) (he : doc.hasKey "edges" = false) :
    (main json_file output output_dir_exists (.ok doc)).nodesCsv
      = some (generate_nodes_csv [] (path_join output "nodes_ln.csv")) ∧
    (main json_file output output_dir_exists (.ok doc)).channelsCsv
      = some (generate_channels_csv [] (path_join output "channels_ln.csv")) ∧
    (main json_file output output_dir_exists (.ok doc)).edgesCsv
      = some (generate_edges_csv [] (path_join output "edges_ln.csv")) ∧
    (generate_nodes_csv [] (path_join output "nodes_ln.csv")).file.rows = [] ∧
    (generate_channels_csv [] (path_join output "channels_ln.csv")).file.rows = [] ∧
    (generate_edges_csv [] (path_join output "edges_ln.csv")).file.rows = [] := by
  have hnodes := getd_eq_dflt_of_not_hasKey doc "nodes" (.arr []) hn
  have hedges := getd_eq_dflt_of_not_hasKey doc "edges" (.arr []) he
  refine ⟨?_, ?_, ?_, rfl, rfl, rfl⟩ <;>
    simp [main, load_json_data, ht, hnodes, hedges, JsonValue.toList]

/-- C5 (amended) witness: a one-key document without `nodes`/`edges` yields
three CSV files with zero data rows. -/
theorem C5_missing_keys_default_witness :
    (main "graph.json" "out" false
        (.ok (JsonValue.obj [("chain", JsonValue.str "main")]))).nodesCsv
      = some (generate_nodes_csv [] (path_join "out" "nodes_ln.csv")) ∧
    (generate_nodes_csv [] (path_join "out" "nodes_ln.csv")).file.rows = [] := by
  have h := C5_missing_keys_default (JsonValue.obj [("chain", JsonValue.str "main")])
    "graph.json" "out" false rfl (by decide) (by decide)
  exact ⟨h.1, h.2.2.2.1⟩

/-- C6: a nonexistent input file makes the loader print the
file-not-found error and return the empty document; undecodable content
makes it print the parse error with the decoder's message; in both cases
`main` aborts and none of the three CSV files are written. -/
theorem C6_load_failure (json_file_path output : String) (output_dir_exists : Bool)
    (msg : String) :
    (load_json_data json_file_path .fileNotFound).printed
      = ["Error: JSONファイル \x27" ++ json_file_path ++ "\x27 が見つかりません"] ∧
    (load_json_data json_file_path .fileNotFound).data = .obj [] ∧
    (load_json_data json_file_path (.parseError msg)).printed
      = ["Error: JSONファイルの読み込みエラー: " ++ msg] ∧
    (load_json_data json_file_path (.parseError msg)).data = .obj [] ∧
    (main json_file_path output output_dir_exists .fileNotFound).nodesCsv = none ∧
    (main json_file_path output output_dir_exists .fileNotFound).channelsCsv = none ∧
    (main json_file_path output output_dir_exists .fileNotFound).edgesCsv = none ∧
    (main json_file_path output output_dir_exists (.parseError msg)).nodesCsv = none ∧
    (main json_file_path output output_dir_exists (.parseError msg)).channelsCsv = none ∧
    (main json_file_path output output_dir_exists (.parseError msg)).edgesCsv = none :=
  ⟨rfl, rfl, rfl, rfl, rfl, rfl, rfl, rfl, rfl, rfl⟩

/-- C8: on a load failure (missing or undecodable input) `main` returns
normally with exit status 0; the failure shows up only in the printed
messages. -/
theorem C8_exit_normally (json_file output : String) (output_dir_exists : Bool)
    (msg : String) :
    (main json_file output output_dir_exists .fileNotFound).exitCode = 0 ∧
    (main json_file output output_dir_exists (.parseError msg)).exitCode = 0 ∧
    ("Error: JSONファイル \x27" ++ json_file ++ "\x27 が見つかりません")
      ∈ (main json_file output output_dir_exists .fileNotFound).printed ∧
    ("Error: JSONファイルの読み込みエラー: " ++ msg)
      ∈ (main json_file output output_dir_exists (.parseError msg)).printed ∧
    "Error: JSONデータの読み込みに失敗しました"
      ∈ (main json_file output output_dir_exists .fileNotFound).printed := by
  refine ⟨rfl, rfl, ?_, ?_, ?_⟩ <;> simp [main, load_json_data, JsonValue.truthy]

/-- C10: a missing output directory is created whatever the load outcome
turns out to be (it is created before the file is read), so a run that then
fails to load leaves the new directory behind while writing no CSV file;
an existing directory is never re-created. -/
theorem C10_output_dir (json_file output : String) (outcome : LoadOutcome)
    (msg : String) :
    (main json_file output false outcome).dirCreated = true ∧
    (main json_file output true outcome).dirCreated = false ∧
    (main json_file output false .fileNotFound).dirCreated = true ∧
    (main json_file output false .fileNotFound).nodesCsv = none ∧
    (main json_file output false .fileNotFound).channelsCsv = none ∧
    (main json_file output false .fileNotFound).edgesCsv = none ∧
    (main json_file output false (.parseError msg)).dirCreated = true ∧
    (main json_file output false (.parseError msg)).nodesCsv = none ∧
    (main json_file output false (.parseError msg)).channelsCsv = none ∧
    (main json_file output false (.parseError msg)).edgesCsv = none := by
  refine ⟨?_, ?_, rfl, rfl, rfl, rfl, rfl, rfl, rfl, rfl⟩ <;>
    (simp only [main]; split <;> rfl)

end DescribeGraph
